import Mathlib

/-!
Verification of the conversational survey-analysis pipeline implemented in
src/survey_chatbot.py (class SurveyChatbot).

The embedding is shallow: Python strings are Lean Strings, and the handful of
Python string primitives the pipeline uses (str.strip, str.lower,
str.split(sep), the substring test with the in operator) are re-implemented
below as structurally recursive functions over the underlying character list,
so that every definition is executable inside the kernel.  The two completion
calls and the exec of generated plotting code are external effects; they are
modelled by oracle parameters giving the outcome of each call, and the
pyplot figure registry is modelled by a counter of open figures.
-/

set_option maxRecDepth 40000

/-! ### Python string primitives -/

/-- Test whether pat is a prefix of cs (helper for the substring test and
for splitting). -/
def listBeginsWith (pat : List Char) (cs : List Char) : Bool :=
  match pat, cs with
  | [], _ => true
  | _ :: _, [] => false
  | p :: ps, c :: cs => p = c && listBeginsWith ps cs

/-- Python substring test pat in s, on character lists. -/
def containsChars (pat : List Char) : List Char → Bool
  | [] => listBeginsWith pat []
  | c :: cs => listBeginsWith pat (c :: cs) || containsChars pat cs

/-- Python str.split(sep) for a non-empty separator, on character lists.
The first argument is fuel; the callers pass the length of the list plus
one, which is always enough because each step consumes at least one
character. -/
def splitChars (pat : List Char) : Nat → List Char → List Char → List (List Char)
  | 0, cs, acc => [acc.reverse ++ cs]
  | _ + 1, [], acc => [acc.reverse]
  | fuel + 1, c :: cs, acc =>
    if listBeginsWith pat (c :: cs) then
      acc.reverse :: splitChars pat fuel (List.drop pat.length (c :: cs)) []
    else
      splitChars pat fuel cs (c :: acc)

/-- Python str.strip(): drop whitespace from both ends. -/
def trimChars (cs : List Char) : List Char :=
  ((cs.dropWhile Char.isWhitespace).reverse.dropWhile Char.isWhitespace).reverse

/-- Python s.strip() on Lean Strings. -/
def pyTrim (s : String) : String := ⟨trimChars s.data⟩

/-- Python s.lower() on Lean Strings (ASCII case folding). -/
def pyLower (s : String) : String := ⟨s.data.map Char.toLower⟩

/-- Python s.split(sep) on Lean Strings. -/
def pySplit (s sep : String) : List String :=
  (splitChars sep.data (s.data.length + 1) s.data []).map String.mk

/-- Python pat in s on Lean Strings. -/
def pyContains (s pat : String) : Bool := containsChars pat.data s.data

/-! ### Data model

A dataframe snapshot records, for each column, exactly the attributes
survey_chatbot.py inspects: its name, its pandas dtype class (numeric,
datetime, or anything else), and its number of distinct values
(df[col].nunique()), together with the row count len(df). -/

/-- Pandas dtype classes distinguished by _analyze_survey_structure. -/
inductive Dtype where
  | numeric
  | datetime
  | other
deriving DecidableEq

/-- One dataframe column as seen by the chatbot. -/
structure Column where
  name : String
  dtype : Dtype
  nunique : Nat
deriving DecidableEq

/-- A dataframe snapshot: its columns and its row count. -/
structure DataFrame where
  columns : List Column
  nrows : Nat
deriving DecidableEq

/-- Pandas df.empty: true when either axis has length zero. -/
def DataFrame.empty (df : DataFrame) : Bool :=
  df.nrows == 0 || df.columns.isEmpty

/-- Semantic column types assigned by _analyze_survey_structure. -/
inductive SemanticType where
  | numeric
  | datetime
  | categorical
  | text
deriving DecidableEq

/-- Classification of one column, from _analyze_survey_structure
(src/survey_chatbot.py lines 61-76).  For a non-numeric, non-datetime
column the source computes unique_ratio = df[col].nunique() / len(df) and
tests unique_ratio < 0.2; here the ratio is the exact rational and the
threshold 0.2 is 1/5. -/
def classifyColumn (nrows : Nat) (c : Column) : SemanticType :=
  match c.dtype with
  | Dtype.numeric => SemanticType.numeric
  | Dtype.datetime => SemanticType.datetime
  | Dtype.other =>
      if (c.nunique : ℚ) / (nrows : ℚ) < 1/5 then SemanticType.categorical
      else SemanticType.text

/-- The column_types mapping built by _analyze_survey_structure
(src/survey_chatbot.py lines 36-76): nothing on an empty dataframe,
otherwise one entry per column except the reserved identifier
response_id. -/
def analyzeSurveyStructure (df : DataFrame) : List (String × SemanticType) :=
  if df.empty then []
  else
    (df.columns.filter (fun c => c.name ≠ "response_id")).map
      (fun c => (c.name, classifyColumn df.nrows c))

/-- The self.columns list set during initialization
(src/survey_chatbot.py line 44): all column names, or nothing when the
dataframe is empty. -/
def initColumns (df : DataFrame) : List String :=
  if df.empty then [] else df.columns.map Column.name

/-! ### Completion-call and exec oracles -/

/-- Outcome of one completion-service call: the response content on
success, or the exception text on failure. -/
inductive CallResult where
  | ok (content : String)
  | err (msg : String)
deriving DecidableEq

/-- Outcome of exec on a generated code block: an image produced through
the current figure on success, or the exception text on failure. -/
inductive ExecOutcome where
  | success (img : String)
  | failure (msg : String)
deriving DecidableEq

/-! ### Relevance selection -/

/-- Parsing of the relevance-call response, from _identify_relevant_columns
(src/survey_chatbot.py lines 122-133): strip the response, compare it
case-insensitively with the literal none, otherwise split on commas, strip
each token, and keep only tokens that are known column names. -/
def parseRelevanceResponse (known : List String) (resp : String) : List String :=
  let relevant := pyTrim resp
  if pyLower relevant = "none" then []
  else ((pySplit relevant ",").map pyTrim).filter (fun c => known.contains c)

/-- The whole of _identify_relevant_columns (src/survey_chatbot.py lines
81-136): empty when there are no columns, empty on a failed call, parsed
response otherwise. -/
def identifyRelevantColumns (known : List String) (call : CallResult) : List String :=
  if known.isEmpty then []
  else
    match call with
    | CallResult.ok resp => parseRelevanceResponse known resp
    | CallResult.err _ => []

/-! ### Response parsing -/

/-- The inline response parsing in ask (src/survey_chatbot.py lines
257-269): when both markers occur somewhere in the text, the narrative is
the stripped text before the first start marker and the code is the
stripped text between the first start marker and the next end marker;
otherwise the whole text is narrative and there is no code. -/
def parseResponse (response_text : String) : String × Option String :=
  if pyContains response_text "[CODE]" && pyContains response_text "[/CODE]" then
    let code_parts := pySplit response_text "[CODE]"
    let explanation := pyTrim (code_parts.headD "")
    let code := pyTrim ((pySplit (code_parts.getD 1 "") "[/CODE]").headD "")
    (explanation, some code)
  else
    (response_text, none)

/-- The claim-side ordering condition: some occurrence of the start marker
lies strictly before some occurrence of the end marker, i.e. the text
after the first start marker still contains the end marker. -/
def markersInOrder (s : String) : Bool :=
  match pySplit s "[CODE]" with
  | [] => false
  | [_] => false
  | _ :: rest => pyContains (String.intercalate "[CODE]" rest) "[/CODE]"

/-! ### Visualization sandbox -/

/-- The body of _execute_visualization_code (src/survey_chatbot.py lines
293-316).  openFigs counts the figures registered with the pyplot state:
plt.figure() registers one, plt.close() releases the current one.  On
success the source closes the figure it created and returns the encoded
image; on any exception it returns None from the except block, which
performs no close, so the figure created at line 298 stays registered. -/
def executeVisualizationCode (execBehavior : String → ExecOutcome)
    (code : String) (openFigs : Nat) : Option String × Nat :=
  let openFigs := openFigs + 1
  match execBehavior code with
  | ExecOutcome.success img => (some img, openFigs - 1)
  | ExecOutcome.failure _ => (none, openFigs)

/-! ### Conversation state and the ask pipeline -/

/-- Message roles appearing in the conversation history. -/
inductive Role where
  | user
  | assistant
deriving DecidableEq

/-- One conversation turn, a role and content dictionary in the source. -/
structure Turn where
  role : Role
  content : String
deriving DecidableEq

/-- Python self.conversation_history[-10:] (src/survey_chatbot.py line
239): the at most ten most recent turns. -/
def contextWindow (history : List Turn) : List Turn :=
  history.drop (history.length - 10)

/-- The dictionary ask returns: response text and optional encoded
image. -/
structure AskResult where
  text : String
  visualization : Option String
deriving DecidableEq

/-- Oracles for the external effects of one ask invocation: the outcome of
the relevance completion call, the outcome of the main completion call,
and the behaviour of exec on each possible code block. -/
structure Oracles where
  relevanceCall : CallResult
  mainCall : CallResult
  execBehavior : String → ExecOutcome

/-- Observable outcome of one ask invocation: the returned dictionary, the
conversation history after the call, the pyplot open-figure count after
the call, whether the relevance completion call was issued, and the list
of history turns forwarded to the main completion call (none when that
call was never issued; the source also prepends a system message, which is
not a conversation turn). -/
structure AskOutput where
  result : AskResult
  history : List Turn
  openFigs : Nat
  relevanceCallMade : Bool
  sentWindow : Option (List Turn)
deriving DecidableEq

/-- The fixed no-data message (src/survey_chatbot.py line 151). -/
def noDataMessage : String :=
  "I don't have any survey data to analyze. Please make sure the survey data is loaded correctly."

/-- The suffix appended to the narrative when a code block was found
(src/survey_chatbot.py line 269). -/
def vizSuffix : String := "\n\n(Visualization generated)"

/-- The ask method (src/survey_chatbot.py lines 138-281), with
chatbotColumns standing for self.columns, history for
self.conversation_history on entry, and openFigs for the pyplot figure
registry on entry.  Control flow follows the source: early exit when
there are no columns or the dataframe is empty; append the user turn;
issue the relevance call; build the context window; issue the main call;
on failure return the error text; on success strip the raw content,
append it as the assistant turn, then look for a code block, executing it
in the sandbox when present. -/
def ask (chatbotColumns : List String) (df : DataFrame) (history : List Turn)
    (openFigs : Nat) (query : String) (o : Oracles) : AskOutput :=
  if chatbotColumns.isEmpty || df.empty then
    { result := { text := noDataMessage, visualization := none },
      history := history, openFigs := openFigs,
      relevanceCallMade := false, sentWindow := none }
  else
    let history := history ++ [{ role := Role.user, content := query }]
    let _relevantColumns := identifyRelevantColumns chatbotColumns o.relevanceCall
    let window := contextWindow history
    match o.mainCall with
    | CallResult.err e =>
        { result := { text := "I encountered an error while processing your question: " ++ e,
                      visualization := none },
          history := history, openFigs := openFigs,
          relevanceCallMade := true, sentWindow := some window }
    | CallResult.ok content =>
        let response_text := pyTrim content
        let history := history ++ [{ role := Role.assistant, content := response_text }]
        match parseResponse response_text with
        | (_, none) =>
            { result := { text := response_text, visualization := none },
              history := history, openFigs := openFigs,
              relevanceCallMade := true, sentWindow := some window }
        | (explanation, some code) =>
            let ex := executeVisualizationCode o.execBehavior code openFigs
            { result := { text := explanation ++ vizSuffix, visualization := ex.1 },
              history := history, openFigs := ex.2,
              relevanceCallMade := true, sentWindow := some window }

/-! ### Branch equations for ask -/

theorem ask_eq_noData (chatbotColumns : List String) (df : DataFrame) (history : List Turn)
    (openFigs : Nat) (query : String) (o : Oracles)
    (h : (chatbotColumns.isEmpty || df.empty) = true) :
    ask chatbotColumns df history openFigs query o
      = { result := { text := noDataMessage, visualization := none },
          history := history, openFigs := openFigs,
          relevanceCallMade := false, sentWindow := none } := by
  simp [ask, h]

theorem ask_eq_genFailure (chatbotColumns : List String) (df : DataFrame) (history : List Turn)
    (openFigs : Nat) (query : String) (o : Oracles) (e : String)
    (h : (chatbotColumns.isEmpty || df.empty) = false)
    (hm : o.mainCall = CallResult.err e) :
    ask chatbotColumns df history openFigs query o
      = { result := { text := "I encountered an error while processing your question: " ++ e,
                      visualization := none },
          history := history ++ [{ role := Role.user, content := query }],
          openFigs := openFigs, relevanceCallMade := true,
          sentWindow := some (contextWindow (history ++ [{ role := Role.user, content := query }])) } := by
  simp [ask, h, hm]

theorem ask_eq_okNoCode (chatbotColumns : List String) (df : DataFrame) (history : List Turn)
    (openFigs : Nat) (query : String) (o : Oracles) (content x : String)
    (h : (chatbotColumns.isEmpty || df.empty) = false)
    (hm : o.mainCall = CallResult.ok content)
    (hp : parseResponse (pyTrim content) = (x, none)) :
    ask chatbotColumns df history openFigs query o
      = { result := { text := pyTrim content, visualization := none },
          history := history ++ [{ role := Role.user, content := query },
                                 { role := Role.assistant, content := pyTrim content }],
          openFigs := openFigs, relevanceCallMade := true,
          sentWindow := some (contextWindow (history ++ [{ role := Role.user, content := query }])) } := by
  simp [ask, h, hm, hp]

theorem ask_eq_okCode (chatbotColumns : List String) (df : DataFrame) (history : List Turn)
    (openFigs : Nat) (query : String) (o : Oracles) (content explanation code : String)
    (h : (chatbotColumns.isEmpty || df.empty) = false)
    (hm : o.mainCall = CallResult.ok content)
    (hp : parseResponse (pyTrim content) = (explanation, some code)) :
    ask chatbotColumns df history openFigs query o
      = { result := { text := explanation ++ vizSuffix,
                      visualization := (executeVisualizationCode o.execBehavior code openFigs).1 },
          history := history ++ [{ role := Role.user, content := query },
                                 { role := Role.assistant, content := pyTrim content }],
          openFigs := (executeVisualizationCode o.execBehavior code openFigs).2,
          relevanceCallMade := true,
          sentWindow := some (contextWindow (history ++ [{ role := Role.user, content := query }])) } := by
  simp [ask, h, hm, hp]

/-! ### Shared facts about the context window -/

theorem contextWindow_facts (history : List Turn) (u : Turn) :
    (contextWindow (history ++ [u])).length ≤ 10 ∧
    (contextWindow (history ++ [u])).length = min 10 (history.length + 1) ∧
    contextWindow (history ++ [u]) <:+ history ++ [u] := by
  refine ⟨?_, ?_, List.drop_suffix _ _⟩ <;>
    simp [contextWindow, List.length_drop] <;> omega

/-! ### Claim theorems -/

/-- Claim C2: for every query string, when the chatbot has no columns or
the dataframe is empty, ask returns the fixed no-data message with no
visualization, issues no relevance call and no main completion call, for
any query, visualization keywords included. -/
theorem askNoDataEarlyExit (df : DataFrame) (history : List Turn) (openFigs : Nat)
    (query : String) (o : Oracles) (h : df.empty = true) :
    (ask (initColumns df) df history openFigs query o).result.text = noDataMessage ∧
    (ask (initColumns df) df history openFigs query o).result.visualization = none ∧
    (ask (initColumns df) df history openFigs query o).relevanceCallMade = false ∧
    (ask (initColumns df) df history openFigs query o).sentWindow = none := by
  rw [ask_eq_noData _ _ _ _ _ _ (by simp [h])]
  exact ⟨rfl, rfl, rfl, rfl⟩

/-- Witness for C2 at a concrete empty dataset and a query made of
visualization-trigger keywords. -/
theorem askNoDataEarlyExit_witness :
    (ask (initColumns ⟨[], 0⟩) ⟨[], 0⟩ [] 0 "Show me a bar chart"
        ⟨CallResult.ok "none", CallResult.ok "hi", fun _ => ExecOutcome.success "i"⟩).result.text
      = "I don't have any survey data to analyze. Please make sure the survey data is loaded correctly." ∧
    (ask (initColumns ⟨[], 0⟩) ⟨[], 0⟩ [] 0 "Show me a bar chart"
        ⟨CallResult.ok "none", CallResult.ok "hi", fun _ => ExecOutcome.success "i"⟩).result.visualization = none ∧
    (ask (initColumns ⟨[], 0⟩) ⟨[], 0⟩ [] 0 "Show me a bar chart"
        ⟨CallResult.ok "none", CallResult.ok "hi", fun _ => ExecOutcome.success "i"⟩).relevanceCallMade = false ∧
    (ask (initColumns ⟨[], 0⟩) ⟨[], 0⟩ [] 0 "Show me a bar chart"
        ⟨CallResult.ok "none", CallResult.ok "hi", fun _ => ExecOutcome.success "i"⟩).sentWindow = none := by
  have W := askNoDataEarlyExit ⟨[], 0⟩ [] 0 "Show me a bar chart"
    ⟨CallResult.ok "none", CallResult.ok "hi", fun _ => ExecOutcome.success "i"⟩ (by decide)
  exact ⟨W.1.trans (by decide), W.2.1, W.2.2.1, W.2.2.2⟩

/-- Claim C10: on an empty dataset the early exit happens before the user
turn is recorded, so ask leaves conversation history completely
unchanged. -/
theorem emptyDataHistoryUnchanged (df : DataFrame) (history : List Turn) (openFigs : Nat)
    (query : String) (o : Oracles) (h : df.empty = true) :
    (ask (initColumns df) df history openFigs query o).history = history := by
  rw [ask_eq_noData _ _ _ _ _ _ (by simp [h])]

/-- Witness for C10 at a dataframe that has a column but zero rows and a
non-empty prior history. -/
theorem emptyDataHistoryUnchanged_witness :
    (ask (initColumns ⟨[⟨"q1", Dtype.other, 0⟩], 0⟩) ⟨[⟨"q1", Dtype.other, 0⟩], 0⟩
        [⟨Role.user, "earlier"⟩, ⟨Role.assistant, "reply"⟩] 0 "show me a pie chart"
        ⟨CallResult.ok "none", CallResult.ok "hi", fun _ => ExecOutcome.success "i"⟩).history
      = [⟨Role.user, "earlier"⟩, ⟨Role.assistant, "reply"⟩] :=
  emptyDataHistoryUnchanged ⟨[⟨"q1", Dtype.other, 0⟩], 0⟩
    [⟨Role.user, "earlier"⟩, ⟨Role.assistant, "reply"⟩] 0 "show me a pie chart"
    ⟨CallResult.ok "none", CallResult.ok "hi", fun _ => ExecOutcome.success "i"⟩ (by decide)

/-- Claim C3: for every conversation history, the turn list forwarded to
the main completion call holds at most the 10 most recent turns (it has
length min 10 (per-call history length) and is a suffix of the history as
it stands when the call is issued), while ask never truncates the full
history: the incoming history is always a prefix of the outgoing one. -/
theorem contextWindowBounded (chatbotColumns : List String) (df : DataFrame)
    (history : List Turn) (openFigs : Nat) (query : String) (o : Oracles) :
    history <+: (ask chatbotColumns df history openFigs query o).history ∧
    ∀ w, (ask chatbotColumns df history openFigs query o).sentWindow = some w →
      w.length ≤ 10 ∧
      w.length = min 10 (history.length + 1) ∧
      w <:+ history ++ [{ role := Role.user, content := query }] := by
  cases hB : (chatbotColumns.isEmpty || df.empty) with
  | true =>
      rw [ask_eq_noData _ _ _ _ _ _ hB]
      refine ⟨List.prefix_refl _, ?_⟩
      intro w hw
      simp at hw
  | false =>
      have hwfacts := contextWindow_facts history ({ role := Role.user, content := query })
      cases hm : o.mainCall with
      | err e =>
          rw [ask_eq_genFailure _ _ _ _ _ _ _ hB hm]
          refine ⟨⟨[{ role := Role.user, content := query }], rfl⟩, ?_⟩
          intro w hw
          cases hw
          simpa [List.length_append] using hwfacts
      | ok content =>
          rcases hp : parseResponse (pyTrim content) with ⟨x, c⟩
          cases c with
          | none =>
              rw [ask_eq_okNoCode _ _ _ _ _ _ _ _ hB hm hp]
              refine ⟨⟨[{ role := Role.user, content := query },
                        { role := Role.assistant, content := pyTrim content }], rfl⟩, ?_⟩
              intro w hw
              cases hw
              simpa [List.length_append] using hwfacts
          | some code =>
              rw [ask_eq_okCode _ _ _ _ _ _ _ _ _ hB hm hp]
              refine ⟨⟨[{ role := Role.user, content := query },
                        { role := Role.assistant, content := pyTrim content }], rfl⟩, ?_⟩
              intro w hw
              cases hw
              simpa [List.length_append] using hwfacts

/-- Witness for C3 at a 12-turn prior history: the forwarded window has
exactly 10 turns and is a suffix of the 13 turns present when the main
call is issued, and the 12 incoming turns are all still in the outgoing
history. -/
theorem contextWindowBounded_witness :
    List.replicate 12 (⟨Role.user, "old"⟩ : Turn)
      <+: (ask ["q1"] ⟨[⟨"q1", Dtype.other, 1⟩], 3⟩
            (List.replicate 12 (⟨Role.user, "old"⟩ : Turn)) 0 "latest"
            ⟨CallResult.err "x", CallResult.err "boom", fun _ => ExecOutcome.failure "f"⟩).history ∧
    ((List.replicate 9 (⟨Role.user, "old"⟩ : Turn) ++ [(⟨Role.user, "latest"⟩ : Turn)]).length ≤ 10 ∧
     (List.replicate 9 (⟨Role.user, "old"⟩ : Turn) ++ [(⟨Role.user, "latest"⟩ : Turn)]).length
       = min 10 ((List.replicate 12 (⟨Role.user, "old"⟩ : Turn)).length + 1) ∧
     (List.replicate 9 (⟨Role.user, "old"⟩ : Turn) ++ [(⟨Role.user, "latest"⟩ : Turn)])
       <:+ List.replicate 12 (⟨Role.user, "old"⟩ : Turn) ++ [{ role := Role.user, content := "latest" }]) := by
  have W := contextWindowBounded ["q1"] ⟨[⟨"q1", Dtype.other, 1⟩], 3⟩
    (List.replicate 12 (⟨Role.user, "old"⟩ : Turn)) 0 "latest"
    ⟨CallResult.err "x", CallResult.err "boom", fun _ => ExecOutcome.failure "f"⟩
  exact ⟨W.1, W.2 (List.replicate 9 (⟨Role.user, "old"⟩ : Turn) ++ [(⟨Role.user, "latest"⟩ : Turn)]) (by decide)⟩

/-- Claim C1 is corrected by this counterexample: on a successful main
call whose response holds a code block, the assistant turn appended to
history is the raw (merely whitespace-trimmed) completion, still
containing the [CODE] block, and not the stripped narrative, which would
be "Insights here.". -/
theorem assistantTurnStripped_cex :
    ((ask ["q1"] ⟨[⟨"q1", Dtype.other, 1⟩], 3⟩ [] 0 "show me a chart"
        ⟨CallResult.ok "none", CallResult.ok "Insights here.\n[CODE]\nplot(df)\n[/CODE]",
         fun _ => ExecOutcome.success "img"⟩).history.map Turn.content
      = ["show me a chart", "Insights here.\n[CODE]\nplot(df)\n[/CODE]"]) ∧
    pyContains "Insights here.\n[CODE]\nplot(df)\n[/CODE]" "[CODE]" = true ∧
    (parseResponse "Insights here.\n[CODE]\nplot(df)\n[/CODE]").1 = "Insights here." ∧
    ((ask ["q1"] ⟨[⟨"q1", Dtype.other, 1⟩], 3⟩ [] 0 "show me a chart"
        ⟨CallResult.ok "none", CallResult.ok "Insights here.\n[CODE]\nplot(df)\n[/CODE]",
         fun _ => ExecOutcome.success "img"⟩).result.text
      = "Insights here.\n\n(Visualization generated)") := by decide

/-- Claim C1 as amended: for every query whose main completion call
succeeds, the assistant turn appended to conversation history carries the
whitespace-trimmed raw completion string, code block included when one is
present; only the returned result text has the code stripped. -/
theorem assistantTurnRawCompletion (chatbotColumns : List String) (df : DataFrame)
    (history : List Turn) (openFigs : Nat) (query : String) (o : Oracles) (content : String)
    (h : (chatbotColumns.isEmpty || df.empty) = false)
    (hm : o.mainCall = CallResult.ok content) :
    (ask chatbotColumns df history openFigs query o).history
      = history ++ [{ role := Role.user, content := query },
                    { role := Role.assistant, content := pyTrim content }] := by
  rcases hp : parseResponse (pyTrim content) with ⟨x, c⟩
  cases c with
  | none => rw [ask_eq_okNoCode _ _ _ _ _ _ _ _ h hm hp]
  | some code => rw [ask_eq_okCode _ _ _ _ _ _ _ _ _ h hm hp]

/-- Witness for the amended C1 at a concrete successful call. -/
theorem assistantTurnRawCompletion_witness :
    (ask ["q1"] ⟨[⟨"q1", Dtype.other, 2⟩], 3⟩ [] 0 "hi"
        ⟨CallResult.err "x", CallResult.ok " hello ", fun _ => ExecOutcome.failure "e"⟩).history
      = [⟨Role.user, "hi"⟩, ⟨Role.assistant, "hello"⟩] :=
  (assistantTurnRawCompletion ["q1"] ⟨[⟨"q1", Dtype.other, 2⟩], 3⟩ [] 0 "hi"
      ⟨CallResult.err "x", CallResult.ok " hello ", fun _ => ExecOutcome.failure "e"⟩
      " hello " (by decide) rfl).trans (by decide)

/-- Claim C4 is corrected by this counterexample: in the string
"[/CODE]A[CODE]B" the sole end marker occurs before the sole start marker,
so no start marker precedes an end marker; the claim then demands that the
whole string be narrative with no code, yet the parse still extracts code
"B" and narrative "[/CODE]A". -/
theorem codeMarkersOrdered_cex :
    markersInOrder "[/CODE]A[CODE]B" = false ∧
    parseResponse "[/CODE]A[CODE]B" = ("[/CODE]A", some "B") := by decide

/-- Claim C4 as amended: the parsed output has a code component iff both
markers occur anywhere in the string, regardless of their order; when at
least one marker is absent the whole string is narrative with no code. -/
theorem codeMarkersAnyOrder (s : String) :
    ((parseResponse s).2.isSome = (pyContains s "[CODE]" && pyContains s "[/CODE]")) ∧
    ((pyContains s "[CODE]" && pyContains s "[/CODE]") = false → parseResponse s = (s, none)) := by
  cases hb : (pyContains s "[CODE]" && pyContains s "[/CODE]") with
  | true =>
      refine ⟨by simp [parseResponse, hb], ?_⟩
      intro hf
      exact Bool.noConfusion hf
  | false =>
      exact ⟨by simp [parseResponse, hb], fun _ => by simp [parseResponse, hb]⟩

/-- Witness for the amended C4 on a marker-free string. -/
theorem codeMarkersAnyOrder_witness :
    (pyContains "No markers here." "[CODE]" && pyContains "No markers here." "[/CODE]") = false ∧
    parseResponse "No markers here." = ("No markers here.", none) :=
  ⟨by decide, (codeMarkersAnyOrder "No markers here.").2 (by decide)⟩

/-- Claim C5: when the generated code block raises during execution, ask
still returns (it is a total function of its oracles), with
visualization none and with the narrative text of that turn, the same
text that a successful execution would return. -/
theorem execFailureKeepsNarrative (chatbotColumns : List String) (df : DataFrame)
    (history : List Turn) (openFigs : Nat) (query : String) (o : Oracles)
    (content explanation code m : String)
    (h : (chatbotColumns.isEmpty || df.empty) = false)
    (hm : o.mainCall = CallResult.ok content)
    (hp : parseResponse (pyTrim content) = (explanation, some code))
    (hx : o.execBehavior code = ExecOutcome.failure m) :
    (ask chatbotColumns df history openFigs query o).result.visualization = none ∧
    (ask chatbotColumns df history openFigs query o).result.text = explanation ++ vizSuffix := by
  rw [ask_eq_okCode _ _ _ _ _ _ _ _ _ h hm hp]
  exact ⟨by simp [executeVisualizationCode, hx], rfl⟩

/-- Witness for C5 at a code block standing for a division by zero. -/
theorem execFailureKeepsNarrative_witness :
    (ask ["q1"] ⟨[⟨"q1", Dtype.other, 1⟩], 4⟩ [] 0 "plot it"
        ⟨CallResult.ok "None", CallResult.ok "Insight.\n[CODE]\n1/0\n[/CODE]",
         fun _ => ExecOutcome.failure "ZeroDivisionError: division by zero"⟩).result.visualization = none ∧
    (ask ["q1"] ⟨[⟨"q1", Dtype.other, 1⟩], 4⟩ [] 0 "plot it"
        ⟨CallResult.ok "None", CallResult.ok "Insight.\n[CODE]\n1/0\n[/CODE]",
         fun _ => ExecOutcome.failure "ZeroDivisionError: division by zero"⟩).result.text
      = "Insight.\n\n(Visualization generated)" := by
  have W := execFailureKeepsNarrative ["q1"] ⟨[⟨"q1", Dtype.other, 1⟩], 4⟩ [] 0 "plot it"
    ⟨CallResult.ok "None", CallResult.ok "Insight.\n[CODE]\n1/0\n[/CODE]",
     fun _ => ExecOutcome.failure "ZeroDivisionError: division by zero"⟩
    "Insight.\n[CODE]\n1/0\n[/CODE]" "Insight." "1/0" "ZeroDivisionError: division by zero"
    (by decide) rfl (by decide) rfl
  exact ⟨W.1, W.2.trans (by decide)⟩

/-- Claim C6: the relevance-response parsing returns, in response order,
exactly the comma-separated, whitespace-trimmed names that belong to the
known column set; a response equal to none case-insensitively (after
trimming) gives the empty list; and in particular the response
"age_group, satisfaction, bogus_col" against known columns age_group and
satisfaction gives exactly those two. -/
theorem relevanceResponseParsing (known : List String) (resp : String) :
    (pyLower (pyTrim resp) = "none" → parseRelevanceResponse known resp = []) ∧
    (pyLower (pyTrim resp) ≠ "none" →
      parseRelevanceResponse known resp
        = ((pySplit (pyTrim resp) ",").map pyTrim).filter (fun c => decide (c ∈ known))) ∧
    parseRelevanceResponse ["age_group", "satisfaction"] "age_group, satisfaction, bogus_col"
      = ["age_group", "satisfaction"] := by
  refine ⟨?_, ?_, by decide⟩
  · intro h
    simp [parseRelevanceResponse, h]
  · intro h
    unfold parseRelevanceResponse
    rw [if_neg h]
    refine List.filter_congr ?_
    intro c _
    simp [List.elem_iff]

/-- Witness for C6: the none case and a response mixing known and unknown
names with stray spaces. -/
theorem relevanceResponseParsing_witness :
    parseRelevanceResponse ["q1"] " None " = [] ∧
    parseRelevanceResponse ["q1", "q2"] "q2 , bogus"
      = ((pySplit (pyTrim "q2 , bogus") ",").map pyTrim).filter
          (fun c => decide (c ∈ (["q1", "q2"] : List String))) :=
  ⟨(relevanceResponseParsing ["q1"] " None ").1 (by decide),
   (relevanceResponseParsing ["q1", "q2"] "q2 , bogus").2.1 (by decide)⟩

/-- Claim C7: over a non-empty dataframe, a non-identifier column whose
dtype is neither numeric nor datetime is classified categorical exactly
when its unique ratio nunique / nrows is strictly below 1/5 (equivalently
5 * nunique < nrows), and a column whose ratio is exactly 1/5 is
classified text; the classification is the one recorded by the structure
analysis. -/
theorem categoricalBoundaryExclusive (df : DataFrame) (c : Column)
    (hdf : df.empty = false) (hc : c ∈ df.columns)
    (hid : c.name ≠ "response_id") (ht : c.dtype = Dtype.other) :
    (c.name, classifyColumn df.nrows c) ∈ analyzeSurveyStructure df ∧
    (classifyColumn df.nrows c = SemanticType.categorical
      ↔ (c.nunique : ℚ) / (df.nrows : ℚ) < 1/5) ∧
    (classifyColumn df.nrows c = SemanticType.categorical
      ↔ 5 * c.nunique < df.nrows) ∧
    ((c.nunique : ℚ) / (df.nrows : ℚ) = 1/5 →
      classifyColumn df.nrows c = SemanticType.text) := by
  have hrows : 0 < df.nrows := by
    unfold DataFrame.empty at hdf
    simp only [Bool.or_eq_false_iff, beq_eq_false_iff_ne, ne_eq] at hdf
    omega
  have hratio : ((c.nunique : ℚ) / (df.nrows : ℚ) < 1/5) ↔ 5 * c.nunique < df.nrows := by
    rw [div_lt_div_iff₀ (by exact_mod_cast hrows) (by norm_num), one_mul]
    norm_cast
    omega
  refine ⟨?_, ?_, ?_, ?_⟩
  · unfold analyzeSurveyStructure
    rw [if_neg (by simp [hdf])]
    exact List.mem_map.mpr ⟨c, List.mem_filter.mpr ⟨hc, by simp [hid]⟩, rfl⟩
  · unfold classifyColumn
    rw [ht]
    by_cases hlt : (c.nunique : ℚ) / (df.nrows : ℚ) < 1/5 <;> simp [hlt]
  · rw [← hratio]
    unfold classifyColumn
    rw [ht]
    by_cases hlt : (c.nunique : ℚ) / (df.nrows : ℚ) < 1/5 <;> simp [hlt]
  · intro he
    have hnlt : ¬ ((c.nunique : ℚ) / (df.nrows : ℚ) < 1/5) := by
      rw [he]
      exact lt_irrefl _
    unfold classifyColumn
    rw [ht, if_neg hnlt]

/-- Witness for C7: one distinct value over five rows is a unique ratio of
exactly 1/5 and yields text, and the analysis records that entry. -/
theorem categoricalBoundaryExclusive_witness :
    classifyColumn 5 ⟨"rating", Dtype.other, 1⟩ = SemanticType.text ∧
    ("rating", classifyColumn 5 ⟨"rating", Dtype.other, 1⟩)
      ∈ analyzeSurveyStructure ⟨[⟨"rating", Dtype.other, 1⟩], 5⟩ := by
  have W := categoricalBoundaryExclusive ⟨[⟨"rating", Dtype.other, 1⟩], 5⟩
    ⟨"rating", Dtype.other, 1⟩ (by decide) (by decide) (by decide) rfl
  exact ⟨W.2.2.2 (by simp), W.1⟩

/-- Claim C8: when the main completion call fails on a non-empty dataset,
exactly the user turn is appended to history (no assistant turn), the
returned text embeds the error description, and there is no
visualization. -/
theorem generationFailureSingleTurn (chatbotColumns : List String) (df : DataFrame)
    (history : List Turn) (openFigs : Nat) (query : String) (o : Oracles) (e : String)
    (h : (chatbotColumns.isEmpty || df.empty) = false)
    (hm : o.mainCall = CallResult.err e) :
    (ask chatbotColumns df history openFigs query o).history
      = history ++ [{ role := Role.user, content := query }] ∧
    (ask chatbotColumns df history openFigs query o).result.text
      = "I encountered an error while processing your question: " ++ e ∧
    (ask chatbotColumns df history openFigs query o).result.visualization = none := by
  rw [ask_eq_genFailure _ _ _ _ _ _ _ h hm]
  exact ⟨rfl, rfl, rfl⟩

/-- Witness for C8 at a concrete failed call. -/
theorem generationFailureSingleTurn_witness :
    (ask ["q1"] ⟨[⟨"q1", Dtype.other, 1⟩], 2⟩ [] 0 "What is the average?"
        ⟨CallResult.ok "q1", CallResult.err "rate limit", fun _ => ExecOutcome.success "i"⟩).history
      = [⟨Role.user, "What is the average?"⟩] ∧
    (ask ["q1"] ⟨[⟨"q1", Dtype.other, 1⟩], 2⟩ [] 0 "What is the average?"
        ⟨CallResult.ok "q1", CallResult.err "rate limit", fun _ => ExecOutcome.success "i"⟩).result.text
      = "I encountered an error while processing your question: rate limit" ∧
    (ask ["q1"] ⟨[⟨"q1", Dtype.other, 1⟩], 2⟩ [] 0 "What is the average?"
        ⟨CallResult.ok "q1", CallResult.err "rate limit", fun _ => ExecOutcome.success "i"⟩).result.visualization
      = none := by
  have W := generationFailureSingleTurn ["q1"] ⟨[⟨"q1", Dtype.other, 1⟩], 2⟩ [] 0
    "What is the average?"
    ⟨CallResult.ok "q1", CallResult.err "rate limit", fun _ => ExecOutcome.success "i"⟩
    "rate limit" (by decide) rfl
  exact ⟨W.1.trans (by decide), W.2.1.trans (by decide), W.2.2⟩

/-- Claim C9 names a resource discipline the source does not implement on
its exception path: on successful execution the figure opened by
plt.figure() is closed again (the open-figure count returns to its
starting value), but when the generated code raises, the except block
returns None without any close, leaving the figure registered.  Starting
from zero open figures, a failing code block ends the call with one open
figure. -/
theorem sandboxLeaksFigureOnFailure :
    executeVisualizationCode
        (fun _ => ExecOutcome.failure "ZeroDivisionError: division by zero") "1/0" 0
      = (none, 1) ∧
    executeVisualizationCode
        (fun _ => ExecOutcome.success "iVBORw0KGgo=") "plt.plot(df)" 0
      = (some "iVBORw0KGgo=", 0) := by decide
